import Mathlib

/-!
# Verification of the Garmin-MCP core

Shallow embedding of the two non-trivial subsystems of the repository:

* the heart-rate resampling step of `get_heart_rate_details`
  (`src/garmin_mcp/core.py`, lines 66–111), and
* the session-establishment procedure of `main`
  (`src/main.py`, lines 26–55).

Timestamps are modelled as integer milliseconds (the gateway delivers
millisecond epoch timestamps `hr[0]`; Python's float round-trip through
`datetime.fromtimestamp` is exact at this resolution).  Local wall-clock
time-of-day is `(ms + tzOffsetMs) mod 86400000`, parametrised by the
process's time-zone offset.  The interval gate
`(time_hr - last_logged_time).total_seconds() >= interval_minutes * 60`
becomes `interval_minutes * 60000 ≤ t - last` on millisecond integers.
-/

namespace GarminMCP

/-- A raw heart-rate sample as delivered by the gateway's
`heartRateValues` array: `hr = [timestampMillis, value-or-null]`. -/
structure HeartRateSample where
  timestampMillis : Int
  value : Option Int
deriving Repr, DecidableEq

/-- An emitted resampled point.  The code emits
`{"time": time_hr.strftime("%H:%M:%S"), "value": hr[1]}` and keeps
`last_logged_time = time_hr`; we carry the full emitted timestamp
(from which the formatted time-of-day is derived) and the value. -/
structure ResampledPoint where
  timestampMillis : Int
  value : Int
deriving Repr, DecidableEq

/-- Milliseconds in a day. -/
def msPerDay : Int := 86400000

/-- Local wall-clock time-of-day of an epoch-millisecond timestamp, in
milliseconds since local midnight: the embedding of
`datetime.datetime.fromtimestamp(float(hr[0]) / 1000).time()`. -/
def timeOfDay (tzOffsetMs ms : Int) : Int :=
  (ms + tzOffsetMs).emod msPerDay

/-- The time-of-day window test of lines 100–102:
`start_time_obj <= time_only <= end_time_obj` when a window is present,
trivially true otherwise.  Bounds are milliseconds since midnight. -/
def inWindow (window : Option (Int × Int)) (tod : Int) : Bool :=
  match window with
  | none => true
  | some (s, e) => decide (s ≤ tod) && decide (tod ≤ e)

/-- The interval gate of line 104:
`last_logged_time is None or
 (time_hr - last_logged_time).total_seconds() >= interval_minutes * 60`. -/
def passesGate (intervalMinutes : Int) (last : Option Int) (t : Int) : Bool :=
  match last with
  | none => true
  | some l => decide (intervalMinutes * 60000 ≤ t - l)

/-- The resampling loop of lines 91–109, with `last` the running
`last_logged_time` (`none` initially).  A sample with a null value is
skipped (line 94), a sample outside the window is skipped (line 102),
a sample failing the interval gate is skipped; an emission appends the
point and updates `last_logged_time` (lines 105–109). -/
def resampleAux (tz : Int) (window : Option (Int × Int)) (iv : Int) :
    Option Int → List HeartRateSample → List ResampledPoint
  | _, [] => []
  | last, hr :: rest =>
    match hr.value with
    | none => resampleAux tz window iv last rest
    | some v =>
      if inWindow window (timeOfDay tz hr.timestampMillis) then
        if passesGate iv last hr.timestampMillis then
          { timestampMillis := hr.timestampMillis, value := v } ::
            resampleAux tz window iv (some hr.timestampMillis) rest
        else
          resampleAux tz window iv last rest
      else
        resampleAux tz window iv last rest

/-- The whole resampling step: `last_logged_time = None` at line 91. -/
def resample (tz : Int) (window : Option (Int × Int)) (iv : Int)
    (samples : List HeartRateSample) : List ResampledPoint :=
  resampleAux tz window iv none samples

/-- The single error kind `get_heart_rate_details` raises itself
(line 81, `ValueError`; the spec's `ValidationError`). -/
inductive HRError where
  | validationError
deriving Repr, DecidableEq

/-- The gateway's structured response to
`wellness-service/wellness/dailyHeartRate?date=...`: a dictionary that
may or may not carry a `heartRateValues` key, with all other keys
abstracted as `rest : ρ`. -/
structure DailyResponse (ρ : Type) where
  heartRateValues : Option (List HeartRateSample)
  rest : ρ
deriving Repr, DecidableEq

/-- The dictionary returned by `get_heart_rate_details`: after
`data.pop("heartRateValues", [])` and `data["heartRateValues"] = [...]`
the key is always present and holds resampled points; the other keys
(`rest`) are untouched. -/
structure DetailResponse (ρ : Type) where
  heartRateValues : List ResampledPoint
  rest : ρ
deriving Repr, DecidableEq

/-- Default of the `interval_minutes` parameter (line 66). -/
def defaultIntervalMinutes : Int := 10

/-- The window built at lines 84–85 and consulted at line 100: present
exactly when both bounds are present. -/
def mkWindow (ts te : Option Int) : Option (Int × Int) :=
  match ts, te with
  | some s, some e => some (s, e)
  | _, _ => none

/-- `get_heart_rate_details` (lines 66–111) with its effect on the
gateway made explicit: the second component counts the
`client.connectapi` requests performed.  Optional times are modelled
as already-parsed milliseconds-since-midnight; the presence check
`bool(time_start) != bool(time_end)` (line 80) becomes an `isSome`
mismatch and raises before any gateway request. -/
def getHeartRateDetailsT (tz : Int) {ρ : Type} (gw : DailyResponse ρ)
    (time_start time_end : Option Int)
    (interval_minutes : Int := defaultIntervalMinutes) :
    Except HRError (DetailResponse ρ) × Nat :=
  if time_start.isSome != time_end.isSome then
    (.error .validationError, 0)
  else
    (.ok { heartRateValues :=
             resample tz (mkWindow time_start time_end) interval_minutes
               (gw.heartRateValues.getD []),
           rest := gw.rest },
     1)

/-! ## Session establishment (`src/main.py`, lines 26–55)

The environment abstracts the outcomes of the three upstream
interactions; the run records the file-system effects on
`./auth/token.pikl` and the number of times establishment was
re-entered from the top.

`main` is rebound by `@click.command()` (line 18) to a `click.Command`
object, so the attempted restart at line 42,
`return main(email, password, port, host, sse)`, does not call the
decorated function again: the five positional arguments land on
`Command.__call__ → BaseCommand.main(args, prog_name, complete_var,
standalone_mode, windows_expand_args)`, which fails before any
re-entry — under click 8.x `_main_shell_completion` runs
`os.environ.get(3000)` on the integer `complete_var` and raises
`TypeError` (outside `BaseCommand.main`'s try); under click 7.x the
excess positionals raise `TypeError` outright; and even apart from
that, `args = list(email)` splits the email into one-character
arguments that the zero-argument command rejects with a `UsageError`
exit.  On every variant the probe-failure path deletes the token file
and then crashes without reaching fresh login. -/

/-- Outcomes of the upstream provider during one process run. -/
structure SessionEnv where
  /-- `garmin_client.refresh_oauth2()` (line 36) succeeds; when false it
  raises and the exception propagates out of `main` (it is outside the
  `try` block of lines 37–42). -/
  refreshOk : Bool
  /-- the probe `garmin_client.user_profile` (line 39) succeeds. -/
  probeOk : Bool
  /-- `garmin_client.login(email, password)` (line 47) returns a token
  whose first component is `"needs_mfa"`. -/
  loginMfa : Bool
deriving Repr, DecidableEq

/-- File-system effects on the persisted token file. -/
inductive FileEffect where
  | deleteTokenFile
  | writeTokenFile
deriving Repr, DecidableEq

/-- Terminal outcome of session establishment. -/
inductive SessionOutcome where
  /-- reached `crate_mcp_server` (line 56) with an authenticated client. -/
  | serverStarted
  /-- printed the MFA message and `sys.exit(1)` (lines 49–50). -/
  | mfaExit
  /-- `refresh_oauth2` raised and the exception left `main` unhandled. -/
  | uncaughtRefreshError
  /-- the restart call `main(email, password, port, host, sse)`
  (line 42) raised or exited inside the `click.Command` machinery
  before re-entering the procedure. -/
  | uncaughtRestartError
deriving Repr, DecidableEq

/-- Result of one run of `main`'s session establishment.  `restarts`
counts completed re-entries of the procedure from the top (the restart
call at line 42 never completes its re-entry, so the code keeps it at
zero). -/
structure SessionRun where
  outcome : SessionOutcome
  effects : List FileEffect
  restarts : Nat
deriving Repr, DecidableEq

/-- The `else` branch of lines 46–55: fresh login; on an MFA signal exit
without writing; otherwise persist the token (one write). -/
def freshLoginRun (env : SessionEnv) : SessionRun :=
  if env.loginMfa then
    { outcome := .mfaExit, effects := [], restarts := 0 }
  else
    { outcome := .serverStarted, effects := [.writeTokenFile], restarts := 0 }

/-- `main`'s session establishment (lines 33–55), parametrised by
whether `./auth/token.pikl` exists (line 33).  With a persisted session:
refresh, then probe; a probe failure deletes the file and then attempts
`return main(email, password, port, host, sse)` (line 42), which — with
`main` a `click.Command` called on five positionals, see the section
comment — raises or exits before re-entering the procedure, so the run
ends there with the file already deleted; a probe success rewrites the
file.  A refresh failure raises outside the `try` of lines 37–42 and
propagates. -/
def establishSession (fileExists : Bool) (env : SessionEnv) : SessionRun :=
  if fileExists then
    if env.refreshOk then
      if env.probeOk then
        { outcome := .serverStarted, effects := [.writeTokenFile], restarts := 0 }
      else
        { outcome := .uncaughtRestartError,
          effects := [.deleteTokenFile],
          restarts := 0 }
    else
      { outcome := .uncaughtRefreshError, effects := [], restarts := 0 }
  else
    freshLoginRun env

/-! ## Resampler lemmas -/

/-- Reading an emitted point back as a gateway sample: the emitted time
with a present value. -/
def toSample (p : ResampledPoint) : HeartRateSample :=
  { timestampMillis := p.timestampMillis, value := some p.value }

/-- What survives the absent-value filter (line 94) and the window
filter (lines 100–102), as a point — the output the loop would produce
with no effective interval gate. -/
def emitAll (tz : Int) (w : Option (Int × Int)) (hr : HeartRateSample) :
    Option ResampledPoint :=
  match hr.value with
  | none => none
  | some v =>
    if inWindow w (timeOfDay tz hr.timestampMillis) then
      some { timestampMillis := hr.timestampMillis, value := v }
    else
      none

/-- The samples surviving the absent-value and time-window filters. -/
def survivors (tz : Int) (w : Option (Int × Int))
    (samples : List HeartRateSample) : List ResampledPoint :=
  samples.filterMap (emitAll tz w)

/-- The sample sequence of the spec's §8 worked example:
`[(00:00:00, 70), (00:02:00, null), (00:04:00, 72), (00:09:00, 75),
(00:11:00, 74)]` in epoch milliseconds at offset 0. -/
def exSamples : List HeartRateSample :=
  [{ timestampMillis := 0, value := some 70 },
   { timestampMillis := 120000, value := none },
   { timestampMillis := 240000, value := some 72 },
   { timestampMillis := 540000, value := some 75 },
   { timestampMillis := 660000, value := some 74 }]

/-- The sample pair of the spec's window example: `05:59:59` and exactly
`08:00:00`. -/
def windowExSamples : List HeartRateSample :=
  [{ timestampMillis := 21599000, value := some 70 },
   { timestampMillis := 28800000, value := some 75 }]

/-- A concrete gateway response carrying a `heartRateValues` key. -/
def gwEx : DailyResponse Nat :=
  { heartRateValues := some exSamples, rest := 7 }

/-- A concrete gateway response with no `heartRateValues` key. -/
def gwNone : DailyResponse Nat :=
  { heartRateValues := none, rest := 3 }

theorem resampleAux_gap (tz : Int) (w : Option (Int × Int)) (iv : Int)
    (samples : List HeartRateSample) : ∀ (last : Option Int),
    List.Chain' (fun p q => iv * 60000 ≤ q.timestampMillis - p.timestampMillis)
      (resampleAux tz w iv last samples) ∧
    ∀ l : Int, last = some l →
      ∀ p ∈ (resampleAux tz w iv last samples).head?,
        iv * 60000 ≤ p.timestampMillis - l := by
  induction samples with
  | nil =>
    intro last
    exact ⟨List.chain'_nil, by intro l _ p hp; simp [resampleAux] at hp⟩
  | cons hr rest ih =>
    intro last
    cases hv : hr.value with
    | none =>
      have hstep : resampleAux tz w iv last (hr :: rest) =
          resampleAux tz w iv last rest := by
        simp [resampleAux, hv]
      rw [hstep]
      exact ih last
    | some v =>
      by_cases hw : inWindow w (timeOfDay tz hr.timestampMillis) = true
      · by_cases hg : passesGate iv last hr.timestampMillis = true
        · have hstep : resampleAux tz w iv last (hr :: rest) =
              { timestampMillis := hr.timestampMillis, value := v } ::
                resampleAux tz w iv (some hr.timestampMillis) rest := by
            simp [resampleAux, hv, hw, hg]
          have ihx := ih (some hr.timestampMillis)
          rw [hstep]
          refine ⟨List.chain'_cons'.mpr ⟨?_, ihx.1⟩, ?_⟩
          · intro q hq
            exact ihx.2 hr.timestampMillis rfl q hq
          · intro l hl p hp
            simp at hp
            subst hl
            simp [passesGate] at hg
            simpa [← hp] using hg
        · have hstep : resampleAux tz w iv last (hr :: rest) =
              resampleAux tz w iv last rest := by
            simp [resampleAux, hv, hw, hg]
          rw [hstep]
          exact ih last
      · have hstep : resampleAux tz w iv last (hr :: rest) =
            resampleAux tz w iv last rest := by
          simp [resampleAux, hv, hw]
        rw [hstep]
        exact ih last

theorem resampleAux_window (tz : Int) (w : Option (Int × Int)) (iv : Int)
    (samples : List HeartRateSample) : ∀ (last : Option Int)
    (p : ResampledPoint), p ∈ resampleAux tz w iv last samples →
    inWindow w (timeOfDay tz p.timestampMillis) = true := by
  induction samples with
  | nil => intro last p hp; simp [resampleAux] at hp
  | cons hr rest ih =>
    intro last p hp
    cases hv : hr.value with
    | none =>
      rw [show resampleAux tz w iv last (hr :: rest) =
            resampleAux tz w iv last rest by simp [resampleAux, hv]] at hp
      exact ih last p hp
    | some v =>
      by_cases hw : inWindow w (timeOfDay tz hr.timestampMillis) = true
      · by_cases hg : passesGate iv last hr.timestampMillis = true
        · rw [show resampleAux tz w iv last (hr :: rest) =
                { timestampMillis := hr.timestampMillis, value := v } ::
                  resampleAux tz w iv (some hr.timestampMillis) rest by
              simp [resampleAux, hv, hw, hg]] at hp
          rcases List.mem_cons.mp hp with hp | hp
          · subst hp; exact hw
          · exact ih (some hr.timestampMillis) p hp
        · rw [show resampleAux tz w iv last (hr :: rest) =
                resampleAux tz w iv last rest by
              simp [resampleAux, hv, hw, hg]] at hp
          exact ih last p hp
      · rw [show resampleAux tz w iv last (hr :: rest) =
              resampleAux tz w iv last rest by simp [resampleAux, hv, hw]] at hp
        exact ih last p hp

theorem resampleAux_replay (tz : Int) (w : Option (Int × Int)) (iv : Int)
    (out : List ResampledPoint) : ∀ (last : Option Int),
    (∀ p ∈ out, inWindow w (timeOfDay tz p.timestampMillis) = true) →
    List.Chain' (fun p q => iv * 60000 ≤ q.timestampMillis - p.timestampMillis) out →
    (∀ p ∈ out.head?, passesGate iv last p.timestampMillis = true) →
    resampleAux tz w iv last (out.map toSample) = out := by
  induction out with
  | nil => intro last _ _ _; simp [resampleAux]
  | cons p rest ih =>
    intro last hwin hchain hgate
    have hw : inWindow w (timeOfDay tz p.timestampMillis) = true :=
      hwin p (List.mem_cons_self p rest)
    have hg : passesGate iv last p.timestampMillis = true := hgate p (by simp)
    have hrec : resampleAux tz w iv (some p.timestampMillis) (rest.map toSample) = rest :=
      ih (some p.timestampMillis)
        (fun q hq => hwin q (List.mem_cons_of_mem _ hq))
        (List.chain'_cons'.mp hchain).2
        (fun q hq => by
          have hd := (List.chain'_cons'.mp hchain).1 q hq
          simpa [passesGate] using hd)
    simp [resampleAux, toSample, hw, hg, hrec]

theorem resampleAux_empty_window (tz : Int) (iv s e : Int) (hse : e < s)
    (samples : List HeartRateSample) : ∀ (last : Option Int),
    resampleAux tz (some (s, e)) iv last samples = [] := by
  induction samples with
  | nil => intro last; simp [resampleAux]
  | cons hr rest ih =>
    intro last
    cases hv : hr.value with
    | none => simp [resampleAux, hv, ih]
    | some v =>
      have hw : inWindow (some (s, e)) (timeOfDay tz hr.timestampMillis) = false := by
        simp only [inWindow, Bool.and_eq_false_iff, decide_eq_false_iff_not, not_le]
        omega
      simp [resampleAux, hv, hw, ih]

theorem resampleAux_filter (tz : Int) (w : Option (Int × Int)) (iv : Int)
    (samples : List HeartRateSample) : ∀ (last : Option Int),
    resampleAux tz w iv last (samples.filter fun hr => hr.value.isSome) =
      resampleAux tz w iv last samples := by
  induction samples with
  | nil => intro last; simp
  | cons hr rest ih =>
    intro last
    cases hv : hr.value with
    | none =>
      have hf : (hr :: rest).filter (fun hr => hr.value.isSome) =
          rest.filter (fun hr => hr.value.isSome) := by
        simp [List.filter_cons, hv]
      rw [hf, ih last]
      simp [resampleAux, hv]
    | some v =>
      have hf : (hr :: rest).filter (fun hr => hr.value.isSome) =
          hr :: rest.filter (fun hr => hr.value.isSome) := by
        simp [List.filter_cons, hv]
      rw [hf]
      by_cases hw : inWindow w (timeOfDay tz hr.timestampMillis) = true
      · by_cases hg : passesGate iv last hr.timestampMillis = true
        · simp [resampleAux, hv, hw, hg, ih (some hr.timestampMillis)]
        · simp [resampleAux, hv, hw, hg, ih last]
      · simp [resampleAux, hv, hw, ih last]

theorem resampleAux_no_minimum (tz : Int) (w : Option (Int × Int)) (iv : Int)
    (hiv : iv ≤ 0) (samples : List HeartRateSample) : ∀ (last : Option Int),
    List.Pairwise (fun a b => a.timestampMillis ≤ b.timestampMillis) samples →
    (∀ l : Int, last = some l → ∀ hr ∈ samples, l ≤ hr.timestampMillis) →
    resampleAux tz w iv last samples = survivors tz w samples := by
  induction samples with
  | nil => intro last _ _; simp [resampleAux, survivors]
  | cons hr rest ih =>
    intro last hsort hlast
    have hhead := (List.pairwise_cons.mp hsort).1
    have htail := (List.pairwise_cons.mp hsort).2
    cases hv : hr.value with
    | none =>
      have hrec := ih last htail
        (fun l hl hr' hm => hlast l hl hr' (List.mem_cons_of_mem _ hm))
      simp [resampleAux, survivors, List.filterMap_cons, emitAll, hv, hrec]
    | some v =>
      by_cases hw : inWindow w (timeOfDay tz hr.timestampMillis) = true
      · have hg : passesGate iv last hr.timestampMillis = true := by
          cases last with
          | none => simp [passesGate]
          | some l =>
            have hle : l ≤ hr.timestampMillis :=
              hlast l rfl hr (List.mem_cons_self hr rest)
            simp only [passesGate, decide_eq_true_eq]
            omega
        have hrec := ih (some hr.timestampMillis) htail
          (fun l hl hr' hm => by
            cases hl
            exact hhead hr' hm)
        simp [resampleAux, survivors, List.filterMap_cons, emitAll, hv, hw, hg, hrec]
      · have hrec := ih last htail
          (fun l hl hr' hm => hlast l hl hr' (List.mem_cons_of_mem _ hm))
        simp [resampleAux, survivors, List.filterMap_cons, emitAll, hv, hw, hrec]

/-! ## Session-establishment lemmas -/

theorem establishSession_false (env : SessionEnv) :
    establishSession false env = freshLoginRun env := by
  simp [establishSession]

/-! ## The claims -/

/-- C1: for every input sample sequence ordered by timestamp ascending
and every positive `interval_minutes`, the emitted sequence is
non-decreasing in time and every pair of consecutive emitted points is
at least `interval_minutes` minutes apart (only the first emission is
unconditional). -/
theorem resample_monotone_min_gap (tz : Int) (w : Option (Int × Int))
    (iv : Int) (samples : List HeartRateSample) (hiv : 0 < iv)
    (_hsorted : List.Pairwise
      (fun a b => a.timestampMillis ≤ b.timestampMillis) samples) :
    List.Chain' (fun p q => p.timestampMillis ≤ q.timestampMillis)
      (resample tz w iv samples) ∧
    List.Chain' (fun p q => iv * 60000 ≤ q.timestampMillis - p.timestampMillis)
      (resample tz w iv samples) := by
  have hgap := (resampleAux_gap tz w iv samples none).1
  exact ⟨List.Chain'.imp (fun p q h => by omega) hgap, hgap⟩

/-- Witness for C1: the spec's §8 example at interval 10. -/
theorem resample_monotone_min_gap_witness :
    List.Chain' (fun p q => p.timestampMillis ≤ q.timestampMillis)
      (resample 0 none 10 exSamples) ∧
    List.Chain' (fun p q => (10 : Int) * 60000 ≤
      q.timestampMillis - p.timestampMillis) (resample 0 none 10 exSamples) :=
  resample_monotone_min_gap 0 none 10 exSamples (by decide) (by decide)

/-- C3: resampling is idempotent — re-applying the loop to its own
output (each point read back as a present-valued sample at its emitted
time) with the same window and interval returns the same sequence. -/
theorem resample_idempotent (tz : Int) (w : Option (Int × Int)) (iv : Int)
    (samples : List HeartRateSample) :
    resample tz w iv ((resample tz w iv samples).map toSample) =
      resample tz w iv samples := by
  unfold resample
  apply resampleAux_replay
  · intro p hp
    exact resampleAux_window tz w iv samples none p hp
  · exact (resampleAux_gap tz w iv samples none).1
  · intro p _
    simp [passesGate]

/-- C4: the call fails with `ValidationError` if and only if exactly one
of `time_start` and `time_end` is supplied, and in that case no gateway
request is made and no output is produced. -/
theorem getHeartRateDetails_validation (tz : Int) {ρ : Type}
    (gw : DailyResponse ρ) (ts te : Option Int) (iv : Int) :
    ((getHeartRateDetailsT tz gw ts te iv).1 = .error .validationError ↔
      ¬ ts.isSome = te.isSome) ∧
    (¬ ts.isSome = te.isSome →
      getHeartRateDetailsT tz gw ts te iv = (.error .validationError, 0)) := by
  by_cases h : ts.isSome = te.isSome
  · refine ⟨?_, fun hc => absurd h hc⟩
    simp [getHeartRateDetailsT, h]
  · refine ⟨?_, fun _ => ?_⟩ <;> simp [getHeartRateDetailsT, bne_iff_ne, h]

/-- Witness for C4: supplying only `time_start` fails validation with
no gateway request. -/
theorem getHeartRateDetails_validation_witness :
    (getHeartRateDetailsT 0 gwEx (some 21600000) none 10).1 =
      .error .validationError ∧
    getHeartRateDetailsT 0 gwEx (some 21600000) none 10 =
      (.error .validationError, 0) :=
  ⟨(getHeartRateDetails_validation 0 gwEx (some 21600000) none 10).1.mpr
      (by decide),
   (getHeartRateDetails_validation 0 gwEx (some 21600000) none 10).2
      (by decide)⟩

/-- C5: with a window `[s, e]` every emitted point's time-of-day lies in
the inclusive range; an inverted window (`e < s`) emits nothing; and in
the spec's example with window 06:00:00–08:00:00 the sample at 05:59:59
is excluded while the one at exactly 08:00:00 is included. -/
theorem resample_window_inclusive (tz s e iv : Int)
    (samples : List HeartRateSample) :
    (∀ p ∈ resample tz (some (s, e)) iv samples,
      s ≤ timeOfDay tz p.timestampMillis ∧ timeOfDay tz p.timestampMillis ≤ e) ∧
    (e < s → resample tz (some (s, e)) iv samples = []) ∧
    resample 0 (some (21600000, 28800000)) 10 windowExSamples =
      [{ timestampMillis := 28800000, value := 75 }] := by
  refine ⟨?_, ?_, by decide⟩
  · intro p hp
    have hw := resampleAux_window tz (some (s, e)) iv samples none p hp
    simpa [inWindow] using hw
  · intro h
    exact resampleAux_empty_window tz iv s e h samples none

/-- Witness for C5: the included boundary point of the example lies in
the window, and the inverted window yields the empty sequence. -/
theorem resample_window_inclusive_witness :
    ((21600000 : Int) ≤ timeOfDay 0 28800000 ∧
      timeOfDay 0 28800000 ≤ 28800000) ∧
    resample 0 (some (28800000, 21600000)) 10 windowExSamples = [] :=
  ⟨(resample_window_inclusive 0 21600000 28800000 10 windowExSamples).1
      { timestampMillis := 28800000, value := 75 } (by decide),
   (resample_window_inclusive 0 28800000 21600000 10 windowExSamples).2.1
      (by decide)⟩

/-- C6: samples with an absent value are invisible to the loop — the
output on any sequence equals the output on the sequence with absent
values filtered out, so no emitted point originates from an absent
sample and absent samples never update `last_logged_time`. -/
theorem resample_drops_absent (tz : Int) (w : Option (Int × Int)) (iv : Int)
    (samples : List HeartRateSample) :
    resample tz w iv samples =
      resample tz w iv (samples.filter fun hr => hr.value.isSome) := by
  unfold resample
  exact (resampleAux_filter tz w iv samples none).symm

/-- C7: `interval_minutes` defaults to 10 when unspecified, and for any
zero or negative interval every sample surviving the absent-value and
window filters is emitted, given input ordered by timestamp ascending. -/
theorem resample_default_and_no_minimum :
    defaultIntervalMinutes = 10 ∧
    (∀ (tz : Int) (ρ : Type) (gw : DailyResponse ρ) (ts te : Option Int),
      getHeartRateDetailsT tz gw ts te =
        getHeartRateDetailsT tz gw ts te defaultIntervalMinutes) ∧
    ∀ (tz : Int) (w : Option (Int × Int)) (iv : Int)
      (samples : List HeartRateSample), iv ≤ 0 →
      List.Pairwise (fun a b => a.timestampMillis ≤ b.timestampMillis) samples →
      resample tz w iv samples = survivors tz w samples := by
  refine ⟨rfl, fun _ _ _ _ _ => rfl, ?_⟩
  intro tz w iv samples hiv hsort
  unfold resample
  refine resampleAux_no_minimum tz w iv hiv samples none hsort ?_
  intro l hl
  simp at hl

/-- Witness for C7: interval 0 on the §8 example emits every surviving
sample. -/
theorem resample_default_and_no_minimum_witness :
    resample 0 none 0 exSamples = survivors 0 none exSamples :=
  resample_default_and_no_minimum.2.2 0 none 0 exSamples (by decide) (by decide)

/-- C10: on the non-failing path the returned dictionary is the
gateway's response with only its sample collection replaced: `rest` is
unchanged, `heartRateValues` is present and holds the resampled points,
and it is the empty list when the gateway response had no
`heartRateValues` key. -/
theorem getHeartRateDetails_frame (tz : Int) {ρ : Type}
    (gw : DailyResponse ρ) (ts te : Option Int) (iv : Int)
    (h : ts.isSome = te.isSome) :
    (getHeartRateDetailsT tz gw ts te iv).1 =
      .ok { heartRateValues :=
              resample tz (mkWindow ts te) iv (gw.heartRateValues.getD []),
            rest := gw.rest } ∧
    (gw.heartRateValues = none →
      (getHeartRateDetailsT tz gw ts te iv).1 =
        .ok { heartRateValues := [], rest := gw.rest }) := by
  constructor
  · simp [getHeartRateDetailsT, h]
  · intro hn
    simp [getHeartRateDetailsT, h, hn, resample, resampleAux]

/-- Witness for C10 at concrete gateway responses with and without the
`heartRateValues` key. -/
theorem getHeartRateDetails_frame_witness :
    (getHeartRateDetailsT 0 gwEx (some 21600000) (some 28800000) 10).1 =
      .ok { heartRateValues :=
              resample 0 (mkWindow (some 21600000) (some 28800000)) 10
                (gwEx.heartRateValues.getD []),
            rest := gwEx.rest } ∧
    (getHeartRateDetailsT 0 gwNone none none 10).1 =
      .ok { heartRateValues := [], rest := gwNone.rest } :=
  ⟨(getHeartRateDetails_frame 0 gwEx (some 21600000) (some 28800000) 10 rfl).1,
   (getHeartRateDetails_frame 0 gwNone none none 10 rfl).2 rfl⟩

/-- C2 (code bug): with a persisted session whose validation probe
fails, the code deletes the token file and then crashes inside the
restart call of line 42 (a `click.Command` invoked on five
positionals) — it never re-enters the procedure, never reaches the
fresh-login branch, never rewrites the file, and completes zero
restarts, against the claim's delete-then-restart-once-into-fresh-login
procedure (spec §4.1 step 3). -/
theorem establishSession_probe_failure_crash (env : SessionEnv)
    (h1 : env.refreshOk = true) (h2 : env.probeOk = false) :
    establishSession true env =
      { outcome := .uncaughtRestartError,
        effects := [.deleteTokenFile],
        restarts := 0 } := by
  simp [establishSession, h1, h2]

/-- Witness for C2's failing input: refresh succeeds, probe fails,
credentials otherwise fine — the file is deleted, no write follows,
and the run ends in the restart-call crash. -/
theorem establishSession_probe_failure_crash_witness :
    establishSession true { refreshOk := true, probeOk := false, loginMfa := false } =
      { outcome := .uncaughtRestartError,
        effects := [.deleteTokenFile],
        restarts := 0 } :=
  establishSession_probe_failure_crash
    { refreshOk := true, probeOk := false, loginMfa := false } rfl rfl

/-- C8: when the fresh-login response signals that multi-factor
authentication is required, establishment fails with the MFA error,
writes nothing to the token file, and does not retry. -/
theorem establishSession_mfa (env : SessionEnv) (h : env.loginMfa = true) :
    establishSession false env =
      { outcome := .mfaExit, effects := [], restarts := 0 } := by
  rw [establishSession_false]
  simp [freshLoginRun, h]

/-- Witness for C8. -/
theorem establishSession_mfa_witness :
    establishSession false { refreshOk := true, probeOk := true, loginMfa := true } =
      { outcome := .mfaExit, effects := [], restarts := 0 } :=
  establishSession_mfa { refreshOk := true, probeOk := true, loginMfa := true } rfl

/-- C9 counterexample: when `refresh_oauth2` is rejected, the run ends
with an uncaught error, no file deletion and no restart — not the
failed-probe treatment the claim describes. -/
theorem establishSession_refresh_counterexample :
    establishSession true { refreshOk := false, probeOk := true, loginMfa := false } =
      { outcome := .uncaughtRefreshError, effects := [], restarts := 0 } ∧
    establishSession true { refreshOk := false, probeOk := true, loginMfa := false } ≠
      { outcome := (freshLoginRun
          { refreshOk := false, probeOk := true, loginMfa := false }).outcome,
        effects := .deleteTokenFile :: (freshLoginRun
          { refreshOk := false, probeOk := true, loginMfa := false }).effects,
        restarts := 1 } := by
  constructor
  · simp [establishSession]
  · simp [establishSession, freshLoginRun]

/-- C9 amended: a rejection of the refresh-token exchange propagates as
an uncaught error out of `main` — the persisted file is not deleted and
the procedure does not restart; only a failed validation probe gets the
delete-and-restart treatment. -/
theorem establishSession_refresh_propagates (env : SessionEnv)
    (h : env.refreshOk = false) :
    establishSession true env =
      { outcome := .uncaughtRefreshError, effects := [], restarts := 0 } := by
  simp [establishSession, h]

/-- Witness for the amended C9. -/
theorem establishSession_refresh_propagates_witness :
    establishSession true { refreshOk := false, probeOk := true, loginMfa := false } =
      { outcome := .uncaughtRefreshError, effects := [], restarts := 0 } :=
  establishSession_refresh_propagates
    { refreshOk := false, probeOk := true, loginMfa := false } rfl

end GarminMCP
